import Mathlib

/-!
Verification of the chat-application core of `src/app.py` (claude-chat).

The program is embedded shallowly: Python strings become `List Char`
(`Str`), the regex operations of the Response Splitter
(`re.search(r'<thinking>(.*?)</thinking>', s, re.DOTALL)` and
`re.sub(r'<thinking>.*?</thinking>', '', s, re.DOTALL)`) become explicit
leftmost-scan functions, `str.strip()` becomes `pyStrip`, the
tenacity-decorated `invoke_bedrock_with_retry` becomes an explicit
bounded retry loop over an abstract transport, and the message
dictionaries of `process_message` become a structure.
-/

namespace ClaudeChat

/-- Python strings are modelled as lists of characters. -/
abbrev Str := List Char

/-- Python `str.strip()` whitespace class (the ASCII part, which is all the
program's marker handling ever produces). -/
def pyIsSpace (c : Char) : Bool :=
  c == ' ' || c == '\t' || c == '\n' || c == '\r' || c == '\x0b' || c == '\x0c'

/-- Python `s.strip()`: drop leading and trailing whitespace. -/
def pyStrip (s : Str) : Str :=
  ((s.dropWhile pyIsSpace).reverse.dropWhile pyIsSpace).reverse

/-- Index of the first occurrence of `pat` as a contiguous substring of `s`
(Python `s.find(pat)` / the start of the leftmost regex match of a literal). -/
def findSub (pat : Str) : Str → Option Nat
  | [] => if pat.isPrefixOf ([] : Str) then some 0 else none
  | c :: t =>
    if pat.isPrefixOf (c :: t) then some 0
    else (findSub pat t).map (· + 1)

/-- The open marker of the reasoning delimiter pair in `app.py`. -/
def openTag : Str := "<thinking>".data

/-- The close marker of the reasoning delimiter pair in `app.py`. -/
def closeTag : Str := "</thinking>".data

/-- Leftmost non-greedy match of `op(.*?)cl` with DOTALL, returning group 1:
the match starts at the first occurrence of `op`, and the group extends to the
first occurrence of `cl` after it.  (If the first `op` has no `cl` after it,
no later `op` can have one either, so the whole search fails, exactly as
`re.search` does.) -/
def searchPair (op cl s : Str) : Option Str :=
  match findSub op s with
  | none => none
  | some i =>
    match findSub cl (s.drop (i + op.length)) with
    | none => none
    | some j => some ((s.drop (i + op.length)).take j)

/-- Removal of every leftmost non-greedy match of `op.*?cl` from `s`
(Python `re.sub(op + '.*?' + cl, '', s, flags=re.DOTALL)`): scan left to
right over the original string, deleting each matched span and resuming the
scan after it.  The `fuel` argument only guards Lean totality: every step
deletes at least the two markers, so `s.length` fuel is never exhausted. -/
def subPairFuel (op cl : Str) : Nat → Str → Str
  | 0, s => s
  | fuel + 1, s =>
    match findSub op s with
    | none => s
    | some i =>
      match findSub cl (s.drop (i + op.length)) with
      | none => s
      | some j =>
        s.take i ++ subPairFuel op cl fuel ((s.drop (i + op.length)).drop (j + cl.length))

/-- Removal of all non-overlapping `op.*?cl` spans, with adequate fuel. -/
def subPair (op cl s : Str) : Str :=
  subPairFuel op cl s.length s

/-- The placeholder the code stores when no reasoning block is found
(`app.py` line 253). -/
def sentinelThinking : Str := "Reasoning process not explicitly provided".data

/-- Result of the split step: the pair of local variables
(`thinking`, `main_response`) that `get_chat_response` computes. -/
structure SplitResult where
  thinking : Str
  main_response : Str
deriving DecidableEq, Repr

/-- The Response Splitter, `app.py` lines 248-254:

    thinking_match = re.search(r'<thinking>(.*?)</thinking>', full_response, re.DOTALL)
    if thinking_match:
        thinking = thinking_match.group(1).strip()
        main_response = re.sub(r'<thinking>.*?</thinking>', '', full_response, flags=re.DOTALL).strip()
    else:
        thinking = "Reasoning process not explicitly provided"
        main_response = full_response
-/
def split_thinking (full_response : Str) : SplitResult :=
  match searchPair openTag closeTag full_response with
  | some g => ⟨pyStrip g, pyStrip (subPair openTag closeTag full_response)⟩
  | none => ⟨sentinelThinking, full_response⟩

/-- Whether the raw text contains a delimiter pair the splitter's search
matches (an open marker with a close marker after it). -/
def hasThinkingPair (s : Str) : Bool :=
  (searchPair openTag closeTag s).isSome

/-- The open marker of the tool-call delimiter pair in `app.py`. -/
def toolOpenTag : Str := "<tool_code>".data

/-- The close marker of the tool-call delimiter pair in `app.py`. -/
def toolCloseTag : Str := "</tool_code>".data

/-- The tool-call detection step, `app.py` lines 237-245, applied to
`full_response` before the thinking split.  `jsonDecodes` abstracts the
external `json.loads` (success/failure on the stripped tool payload):
when it succeeds, the tool spans are removed from the text and the payload
is kept as the tool-call value; when it fails (`json.JSONDecodeError`),
the text is left unchanged and no tool call is recorded.  Returns the new
`full_response` together with the optional tool-call payload. -/
def tool_code_step (jsonDecodes : Str → Bool) (full_response : Str) : Str × Option Str :=
  if (findSub toolOpenTag full_response).isSome && (findSub toolCloseTag full_response).isSome then
    match searchPair toolOpenTag toolCloseTag full_response with
    | some g =>
      if jsonDecodes (pyStrip g) then
        (pyStrip (subPair toolOpenTag toolCloseTag full_response), some (pyStrip g))
      else (full_response, none)
    | none => (full_response, none)
  else (full_response, none)

/-- Outcome of `invoke_bedrock_with_retry` (plus response decoding) as seen
inside `get_chat_response`'s `try` block: either the raw completion text, or
an exception (of any class, including the post-budget `RetryError`). -/
inductive InvokeOutcome where
  | success (raw : Str)
  | failure (retryable : Bool) (msg : Str)
deriving DecidableEq, Repr

/-- The triple `(thinking, main_response, tool_calls)` that
`get_chat_response` returns on success. -/
structure ChatResponse where
  thinking : Str
  main_response : Str
  tool_calls : Option Str
deriving DecidableEq, Repr

/-- The core of `get_chat_response`, `app.py` lines 219-260: on a successful
invocation the raw completion passes through the tool-call step and the
thinking split and the triple is returned; if the invocation raised (lines
258-260: `except Exception as e: st.error(...); return None, None, None`)
the caller receives the `None` triple, modelled as `none`. -/
def get_chat_response (jsonDecodes : Str → Bool) (outcome : InvokeOutcome) :
    Option ChatResponse :=
  match outcome with
  | .success raw =>
    let ts := tool_code_step jsonDecodes raw
    let r := split_thinking ts.1
    some ⟨r.thinking, r.main_response, ts.2⟩
  | .failure _ _ => none

/-- One transport attempt: `client.invoke_model(**kwargs)` either returns a
response or raises; `retryable` marks errors of the transient class
(throttling, network), `false` marks permanent ones (bad credentials,
malformed payload, invalid model identifier). -/
inductive TransportResult where
  | ok (text : Str)
  | err (retryable : Bool) (msg : Str)
deriving DecidableEq, Repr

/-- What `invoke_bedrock_with_retry` surfaces to its caller: the response, or
— once the attempt budget is exhausted — tenacity's `RetryError` wrapping the
last attempt's exception.  `retryError` is Permanent-class: nothing retries
it further. -/
inductive RetryOutcome where
  | success (text : Str)
  | retryError (lastRetryable : Bool) (lastMsg : Str)
deriving DecidableEq, Repr

/-- The retry loop of the tenacity decorator
`@retry(stop=stop_after_attempt(3), wait=wait_exponential(...))` on
`invoke_bedrock_with_retry`, `app.py` lines 186-194, generalised to an
arbitrary attempt budget.  `tr k` is the result of the `k`-th transport call
(1-based); `remaining` counts the attempts still allowed after the current
one.  The decorated body re-raises every exception (the
`ThrottlingException` branch only warns and sleeps first), and tenacity
retries on any exception until the budget is spent, so the error class never
affects the control flow.  Returns the outcome and the number of transport
calls made. -/
def retryGo (tr : Nat → TransportResult) (attempt : Nat) : Nat → RetryOutcome × Nat
  | 0 =>
    match tr attempt with
    | .ok t => (.success t, attempt)
    | .err r m => (.retryError r m, attempt)
  | remaining + 1 =>
    match tr attempt with
    | .ok t => (.success t, attempt)
    | .err _ _ => retryGo tr (attempt + 1) remaining

/-- `invoke_bedrock_with_retry` under a budget of `maxAttempts` attempts
(the code configures `stop_after_attempt(3)`). -/
def invoke_bedrock_with_retry (maxAttempts : Nat) (tr : Nat → TransportResult) :
    RetryOutcome × Nat :=
  retryGo tr 1 (maxAttempts - 1)

/-- Reaction counters attached to every message by `process_message`. -/
structure Reactions where
  likes : Nat
  dislikes : Nat
deriving DecidableEq, Repr

/-- A message dictionary as built by `process_message`, `app.py` lines
209-217 (`tool_calls` carries the decoded tool payload, `none` for the
empty default). -/
structure Message where
  role : Str
  content : Str
  timestamp : Str
  reactions : Reactions
  thinking : Option Str
  tool_calls : Option Str
deriving DecidableEq, Repr

/-- `process_message(message, role, thinking, tool_calls)` with the
timestamp (`datetime.now().strftime('%I:%M %p')`) passed explicitly. -/
def process_message (message : Str) (role : Str) (ts : Str)
    (thinking : Option Str) (tool_calls : Option Str) : Message :=
  ⟨role, message, ts, ⟨0, 0⟩, thinking, tool_calls⟩

/-- The in-place edit `current_chat["messages"][idx]["content"] =
edited_message`, `app.py` line 391: replace the `content` field of the
message at `idx`, leaving everything else alone. -/
def edit_turn : List Message → Nat → Str → List Message
  | [], _, _ => []
  | m :: ms, 0, newText => { m with content := newText } :: ms
  | m :: ms, k + 1, newText => m :: edit_turn ms k newText

/-- Python `str.capitalize()`: first character uppercased, the rest
lowercased (`msg['role'].capitalize()` in the prompt f-string). -/
def pyCapitalize (s : Str) : Str :=
  match s with
  | [] => []
  | c :: t => c.toUpper :: t.map Char.toLower

/-- One history entry of the wire prompt:
`f'\\n\\n{msg['role'].capitalize()}: {msg['content']}'` — note that `\\n`
in the Python source is a literal backslash-n two-character sequence, not a
newline. -/
def historyLine (m : Message) : Str :=
  "\\n\\n".data ++ pyCapitalize m.role ++ ": ".data ++ m.content

/-- The wire prompt built inside `get_chat_response`, `app.py` line 226:
the concatenated history entries, then a literal `\\n\\nHuman: ` followed by
the prompt, then a real-newline `"\n\nAssistant:"` tail. -/
def wire_prompt (conversation_history : List Message) (prompt : Str) : Str :=
  (conversation_history.map historyLine).flatten
    ++ "\\n\\nHuman: ".data ++ prompt ++ "\n\nAssistant:".data

/-- The chat-input send path, `app.py` lines 502-527: append the prompt as a
user turn (`current_chat["messages"].append(process_message(prompt, "user"))`),
then call `get_chat_response(prompt, current_chat["messages"], ...)`, whose
wire prompt is built from the now-extended history.  Returns the new message
list and the wire prompt transmitted to the model. -/
def send_user_message (msgs : List Message) (prompt : Str) (ts : Str) :
    List Message × Str :=
  let msgs2 := msgs ++ [process_message prompt ("user".data) ts none none]
  (msgs2, wire_prompt msgs2 prompt)

/-- Roles of the spec's payload model. -/
inductive Role where
  | user
  | assistant
deriving DecidableEq, Repr

/-- A turn of the spec's Conversation model. -/
structure SpecTurn where
  role : Role
  text : Str
deriving DecidableEq, Repr

/-- A role-tagged block of the payload the Payload Builder emits. -/
structure Block where
  role : Role
  text : Str
deriving DecidableEq, Repr

/-- The spec's Conversation (the fields the Payload Builder reads). -/
structure Conversation where
  turns : List SpecTurn
  system_prompt : Str
  force_reasoning : Bool

/-- Modelled from the spec: the Payload Builder of spec §4.1 with a
reasoning-instruction block and a system-prompt block.  `src/app.py` has no
`force_reasoning` flag and never places the stored `system_prompt` in the
wire payload; this builder exists only in other variants of the corpus, not
under `src/`, so it is modelled from the spec's words: (1) if
`force_reasoning` is set, prepend a synthetic instruction block (role=user)
whose text `instr` asks for delimited reasoning; (2) if `system_prompt` is
non-empty, append it as a user-role instruction block; (3) append every
stored turn in order, mapping the stored role directly. -/
def build_payload (instr : Str) (c : Conversation) : List Block :=
  (if c.force_reasoning then [⟨Role.user, instr⟩] else [])
    ++ (if c.system_prompt ≠ [] then [⟨Role.user, c.system_prompt⟩] else [])
    ++ c.turns.map (fun t => ⟨t.role, t.text⟩)

/-! ## Helper lemmas -/

/-- When the splitter's search finds no delimiter pair, the code takes the
`else` branch of lines 252-254: the thinking slot gets the placeholder
string and `main_response` is the input itself, untouched. -/
theorem split_thinking_of_no_pair (s : Str) (h : hasThinkingPair s = false) :
    split_thinking s = ⟨sentinelThinking, s⟩ := by
  cases heq : searchPair openTag closeTag s with
  | none => simp [split_thinking, heq]
  | some g => exact absurd h (by simp [hasThinkingPair, heq])

/-! ## Splitter claims -/

/-- C1 (amended): for every raw completion text in which the splitter's
search finds no `<thinking>...</thinking>` delimiter pair, the split step
returns `reasoning_text` equal to the fixed placeholder string
`"Reasoning process not explicitly provided"` (not the empty string) and
`visible_text` equal to the raw input completely unchanged (no trimming is
applied in this branch). -/
theorem splitter_no_match (s : Str) (h : hasThinkingPair s = false) :
    split_thinking s = ⟨sentinelThinking, s⟩ :=
  split_thinking_of_no_pair s h

/-- Witness for C1's amended theorem at the concrete input `" X "`. -/
theorem splitter_no_match_witness :
    hasThinkingPair (" X ".data) = false ∧
      split_thinking (" X ".data) = ⟨sentinelThinking, " X ".data⟩ :=
  ⟨by decide, splitter_no_match (" X ".data) (by decide)⟩

/-- C1 counterexample: on the delimiter-free input `" X "`, the claimed
output (`reasoning_text = ""`, `visible_text = "X"` i.e. the trimmed input)
is not what the split step returns — the thinking slot is the placeholder
string and the text is not trimmed. -/
theorem splitter_no_match_cex :
    hasThinkingPair (" X ".data) = false ∧
      ¬ ((split_thinking (" X ".data)).thinking = [] ∧
        (split_thinking (" X ".data)).main_response = "X".data) := by
  decide

/-- C2: on the raw completion text `"A<thinking>B</thinking>C"`, the split
step returns `reasoning_text = "B"` and `visible_text = "AC"`
(whitespace-trimmed at the seam). -/
theorem splitter_extraction :
    split_thinking ("A<thinking>B</thinking>C".data) = ⟨"B".data, "AC".data⟩ := by
  decide

/-- C3 (amended): for every raw completion text with an open marker
`<thinking>` (first occurrence at index `i`) and no close marker
`</thinking>` after it, the split step performs no extraction: it returns
`visible_text` equal to the raw input unchanged (not trimmed) and
`reasoning_text` equal to the placeholder string
`"Reasoning process not explicitly provided"` (not the empty string). -/
theorem splitter_unclosed (s : Str) (i : Nat)
    (hop : findSub openTag s = some i)
    (hcl : findSub closeTag (s.drop (i + openTag.length)) = none) :
    split_thinking s = ⟨sentinelThinking, s⟩ := by
  simp [split_thinking, searchPair, hop, hcl]

/-- Witness for C3's amended theorem at the concrete input `" A<thinking>B"`. -/
theorem splitter_unclosed_witness :
    findSub openTag (" A<thinking>B".data) = some 2 ∧
      findSub closeTag ((" A<thinking>B".data).drop (2 + openTag.length)) = none ∧
      split_thinking (" A<thinking>B".data) = ⟨sentinelThinking, " A<thinking>B".data⟩ :=
  ⟨by decide, by decide,
    splitter_unclosed (" A<thinking>B".data) 2 (by decide) (by decide)⟩

/-- C3 counterexample: on `" A<thinking>B"` (open marker, no close marker),
the claimed output (`visible_text` = the trimmed input `"A<thinking>B"`,
`reasoning_text = ""`) is not what the split step returns. -/
theorem splitter_unclosed_cex :
    (findSub openTag (" A<thinking>B".data)).isSome = true ∧
      findSub closeTag ((" A<thinking>B".data).drop (2 + openTag.length)) = none ∧
      ¬ ((split_thinking (" A<thinking>B".data)).main_response = "A<thinking>B".data ∧
        (split_thinking (" A<thinking>B".data)).thinking = []) := by
  decide

/-- C4 (amended): re-applying the split step to a `visible_text` output
returns that text unchanged with the placeholder string (not `""`) in the
thinking slot, provided the `visible_text` contains no delimiter pair; this
proviso is necessary, because deleting the delimited spans can splice the
surrounding text into a fresh delimiter pair (see the counterexample). -/
theorem splitter_second_application (s : Str)
    (h : hasThinkingPair (split_thinking s).main_response = false) :
    split_thinking (split_thinking s).main_response =
      ⟨sentinelThinking, (split_thinking s).main_response⟩ :=
  split_thinking_of_no_pair _ h

/-- Witness for C4's amended theorem at the concrete input
`"A<thinking>B</thinking>C"`, whose visible output `"AC"` is delimiter-free. -/
theorem splitter_second_application_witness :
    hasThinkingPair ((split_thinking ("A<thinking>B</thinking>C".data)).main_response) = false ∧
      split_thinking ((split_thinking ("A<thinking>B</thinking>C".data)).main_response) =
        ⟨sentinelThinking, (split_thinking ("A<thinking>B</thinking>C".data)).main_response⟩ :=
  ⟨by decide, splitter_second_application ("A<thinking>B</thinking>C".data) (by decide)⟩

/-- C4 counterexample: on
`"<thin<thinking>x</thinking>king>y</thinking>"` the first application's
span removal splices the remainder into the fresh pair
`"<thinking>y</thinking>"`, so the second application extracts again:
its `reasoning_text` is `"y"` (not `""`) and its `visible_text` is `""`
(the first `visible_text` does not survive unchanged). -/
theorem splitter_idempotence_cex :
    (split_thinking ("<thin<thinking>x</thinking>king>y</thinking>".data)).main_response
        = "<thinking>y</thinking>".data ∧
      ¬ ((split_thinking ((split_thinking
            ("<thin<thinking>x</thinking>king>y</thinking>".data)).main_response)).thinking = [] ∧
        (split_thinking ((split_thinking
            ("<thin<thinking>x</thinking>king>y</thinking>".data)).main_response)).main_response =
          (split_thinking ("<thin<thinking>x</thinking>king>y</thinking>".data)).main_response) := by
  decide

/-! ## Retry-invoker claims -/

/-- When every transport call fails, the retry loop makes one call per
allowed attempt: `attempt + remaining` calls in total. -/
theorem retryGo_count (tr : Nat → TransportResult)
    (hfail : ∀ k, ∃ r m, tr k = TransportResult.err r m) :
    ∀ remaining attempt, (retryGo tr attempt remaining).2 = attempt + remaining := by
  intro remaining
  induction remaining with
  | zero =>
    intro attempt
    obtain ⟨r, m, hk⟩ := hfail attempt
    simp [retryGo, hk]
  | succ n ih =>
    intro attempt
    obtain ⟨r, m, hk⟩ := hfail attempt
    have := ih (attempt + 1)
    simp only [retryGo, hk]
    omega

/-- When every transport call fails, the loop surfaces tenacity's
`RetryError` wrapping the last attempt's error. -/
theorem retryGo_last (tr : Nat → TransportResult)
    (hfail : ∀ k, ∃ r m, tr k = TransportResult.err r m) :
    ∀ remaining attempt r m, tr (attempt + remaining) = TransportResult.err r m →
      (retryGo tr attempt remaining).1 = RetryOutcome.retryError r m := by
  intro remaining
  induction remaining with
  | zero =>
    intro attempt r m hlast
    rw [Nat.add_zero] at hlast
    simp [retryGo, hlast]
  | succ n ih =>
    intro attempt r m hlast
    obtain ⟨r0, m0, hk⟩ := hfail attempt
    simp only [retryGo, hk]
    exact ih (attempt + 1) r m (by rw [show attempt + 1 + n = attempt + (n + 1) by omega]; exact hlast)

/-- An invoker given a budget of `N ≥ 1` attempts whose transport fails on
every attempt (all with the same retryability class `rflag`) calls the
transport exactly `N` times and then surfaces `RetryError`. -/
theorem invoke_retry_all_err (N : Nat) (hN : 1 ≤ N) (rflag : Bool)
    (tr : Nat → TransportResult)
    (hfail : ∀ k, ∃ m, tr k = TransportResult.err rflag m) :
    (invoke_bedrock_with_retry N tr).2 = N ∧
      ∃ m, (invoke_bedrock_with_retry N tr).1 = RetryOutcome.retryError rflag m := by
  have hfail2 : ∀ k, ∃ r m, tr k = TransportResult.err r m := fun k =>
    (hfail k).elim fun m hm => ⟨rflag, m, hm⟩
  obtain ⟨mN, hmN⟩ := hfail N
  have hsum : 1 + (N - 1) = N := by omega
  constructor
  · have h1 := retryGo_count tr hfail2 (N - 1) 1
    unfold invoke_bedrock_with_retry
    rw [h1, hsum]
  · refine ⟨mN, ?_⟩
    unfold invoke_bedrock_with_retry
    exact retryGo_last tr hfail2 (N - 1) 1 rflag mN (by rw [hsum]; exact hmN)

/-- C6: a Completion Invoker configured with a budget of `N` attempts whose
transport fails with a retryable error on every attempt calls the transport
exactly `N` times — neither fewer nor more — and then surfaces the
Permanent-class `RetryError` to the caller (nothing retries a `RetryError`
further). -/
theorem retry_budget (N : Nat) (hN : 1 ≤ N) (tr : Nat → TransportResult)
    (hfail : ∀ k, ∃ m, tr k = TransportResult.err true m) :
    (invoke_bedrock_with_retry N tr).2 = N ∧
      ∃ m, (invoke_bedrock_with_retry N tr).1 = RetryOutcome.retryError true m :=
  invoke_retry_all_err N hN true tr hfail

/-- Witness for C6 at the code's configured budget `N = 3` and a transport
that is throttled on every attempt. -/
theorem retry_budget_witness :
    (invoke_bedrock_with_retry 3
        (fun _ => TransportResult.err true ("ThrottlingException".data))).2 = 3 ∧
      ∃ m, (invoke_bedrock_with_retry 3
          (fun _ => TransportResult.err true ("ThrottlingException".data))).1 =
        RetryOutcome.retryError true m :=
  retry_budget 3 (by decide) _ (fun _ => ⟨"ThrottlingException".data, rfl⟩)

/-- C7 (amended): the tenacity decorator retries on every exception class —
the decorated body re-raises all errors unchanged, and no retryable-error
predicate is configured — so an error the invoker cannot classify as
transient (invalid credentials, malformed payload, invalid model
identifier) is retried exactly like a transient one: the transport is
invoked the full budget of `N` times (3 as configured), not at most once,
before the error is surfaced. -/
theorem permanent_error_retried_full_budget (N : Nat) (hN : 1 ≤ N)
    (tr : Nat → TransportResult)
    (hfail : ∀ k, ∃ m, tr k = TransportResult.err false m) :
    (invoke_bedrock_with_retry N tr).2 = N ∧
      ∃ m, (invoke_bedrock_with_retry N tr).1 = RetryOutcome.retryError false m :=
  invoke_retry_all_err N hN false tr hfail

/-- Witness for C7's amended theorem at the configured budget `N = 3` and a
transport that always fails with a permanent validation error. -/
theorem permanent_error_retried_full_budget_witness :
    (invoke_bedrock_with_retry 3
        (fun _ => TransportResult.err false ("ValidationException: invalid model identifier".data))).2 = 3 ∧
      ∃ m, (invoke_bedrock_with_retry 3
          (fun _ => TransportResult.err false ("ValidationException: invalid model identifier".data))).1 =
        RetryOutcome.retryError false m :=
  permanent_error_retried_full_budget 3 (by decide) _
    (fun _ => ⟨"ValidationException: invalid model identifier".data, rfl⟩)

/-- C7 counterexample: with the code's budget of 3 attempts, a transport
that always fails with a non-transient error (an invalid model identifier)
is invoked 3 times, not at most once, before the error is surfaced. -/
theorem invoker_no_retry_cex :
    (invoke_bedrock_with_retry 3
        (fun _ => TransportResult.err false ("ValidationException: invalid model identifier".data))).2 = 3 ∧
      ¬ (invoke_bedrock_with_retry 3
          (fun _ => TransportResult.err false ("ValidationException: invalid model identifier".data))).2 ≤ 1 := by
  decide

/-! ## Error-propagation claim -/

/-- C8: whenever the remote invocation fails — in particular with a
Permanent-class error (`retryable = false`, e.g. the post-budget
`RetryError`) — `get_chat_response` returns the `None` triple (`none`) to
its caller: the failure is never swallowed and replaced by a non-error
(`some ...`) result. -/
theorem failed_invocation_returns_none (jsonDecodes : Str → Bool)
    (retryable : Bool) (msg : Str) :
    get_chat_response jsonDecodes (InvokeOutcome.failure retryable msg) = none :=
  rfl

/-! ## Conversation-store claim -/

/-- C9: for every message list and valid index `k`, the in-place edit
replaces only the text (`content`) of the message at `k`: the list keeps
its length, every other position is identical, and at position `k` every
field except `content` is preserved. -/
theorem edit_turn_frame (msgs : List Message) (k : Nat) (t : Str)
    (hk : k < msgs.length) :
    (edit_turn msgs k t).length = msgs.length ∧
      (∀ j, j ≠ k → (edit_turn msgs k t)[j]? = msgs[j]?) ∧
      ∃ m, msgs[k]? = some m ∧
        (edit_turn msgs k t)[k]? = some { m with content := t } := by
  induction msgs generalizing k with
  | nil => simp at hk
  | cons m ms ih =>
    cases k with
    | zero =>
      refine ⟨by simp [edit_turn], ?_, m, by simp, by simp [edit_turn]⟩
      intro j hj
      cases j with
      | zero => exact absurd rfl hj
      | succ j2 => simp [edit_turn]
    | succ k2 =>
      have hk2 : k2 < ms.length := by simpa using hk
      obtain ⟨h1, h2, m2, hm2, hm3⟩ := ih k2 hk2
      refine ⟨by simp [edit_turn, h1], ?_, m2, by simpa using hm2,
        by simpa [edit_turn] using hm3⟩
      intro j hj
      cases j with
      | zero => simp [edit_turn]
      | succ j2 =>
        have hj2 : j2 ≠ k2 := fun h => hj (by rw [h])
        simpa [edit_turn] using h2 j2 hj2

/-- Witness for C9 at a concrete two-message conversation, editing index 1. -/
theorem edit_turn_frame_witness :
    1 < ([process_message ("hi".data) ("user".data) ("09:00 AM".data) none none,
          process_message ("hello".data) ("assistant".data) ("09:01 AM".data)
            (some ("t".data)) none] : List Message).length ∧
      ((edit_turn [process_message ("hi".data) ("user".data) ("09:00 AM".data) none none,
          process_message ("hello".data) ("assistant".data) ("09:01 AM".data)
            (some ("t".data)) none] 1 ("bye".data)).length
        = ([process_message ("hi".data) ("user".data) ("09:00 AM".data) none none,
            process_message ("hello".data) ("assistant".data) ("09:01 AM".data)
              (some ("t".data)) none] : List Message).length ∧
      (∀ j, j ≠ 1 →
        (edit_turn [process_message ("hi".data) ("user".data) ("09:00 AM".data) none none,
            process_message ("hello".data) ("assistant".data) ("09:01 AM".data)
              (some ("t".data)) none] 1 ("bye".data))[j]?
          = ([process_message ("hi".data) ("user".data) ("09:00 AM".data) none none,
              process_message ("hello".data) ("assistant".data) ("09:01 AM".data)
                (some ("t".data)) none] : List Message)[j]?) ∧
      ∃ m, ([process_message ("hi".data) ("user".data) ("09:00 AM".data) none none,
              process_message ("hello".data) ("assistant".data) ("09:01 AM".data)
                (some ("t".data)) none] : List Message)[1]? = some m ∧
        (edit_turn [process_message ("hi".data) ("user".data) ("09:00 AM".data) none none,
            process_message ("hello".data) ("assistant".data) ("09:01 AM".data)
              (some ("t".data)) none] 1 ("bye".data))[1]?
          = some { m with content := "bye".data }) :=
  ⟨by decide,
    edit_turn_frame
      [process_message ("hi".data) ("user".data) ("09:00 AM".data) none none,
        process_message ("hello".data) ("assistant".data) ("09:01 AM".data)
          (some ("t".data)) none] 1 ("bye".data) (by decide)⟩

/-! ## Wire-payload claim -/

/-- C10: the chat-input send path first appends the prompt as a user turn
to the conversation's message list and then builds the wire prompt from the
extended history plus a trailing `Human:` line carrying the same prompt, so
the newest user message appears twice in the transmitted payload: once as
the final history entry `\\n\\nUser: <prompt>` and once as the trailing
`\\n\\nHuman: <prompt>` line. -/
theorem prompt_sent_twice (msgs : List Message) (p ts : Str) :
    (send_user_message msgs p ts).1
        = msgs ++ [process_message p ("user".data) ts none none] ∧
      (send_user_message msgs p ts).2
        = (msgs.map historyLine).flatten
            ++ ("\\n\\nUser: ".data ++ p)
            ++ ("\\n\\nHuman: ".data ++ p ++ "\n\nAssistant:".data) := by
  constructor
  · rfl
  · show wire_prompt (msgs ++ [process_message p ("user".data) ts none none]) p = _
    have hline : historyLine (process_message p ("user".data) ts none none)
        = "\\n\\nUser: ".data ++ p := by
      show "\\n\\n".data ++ pyCapitalize ("user".data) ++ ": ".data ++ p = _
      have hcap : pyCapitalize ("user".data) = "User".data := by decide
      rw [hcap]
      have hcat : ("\\n\\n".data ++ "User".data ++ ": ".data : Str)
          = "\\n\\nUser: ".data := by decide
      rw [← hcat]
    simp [wire_prompt, hline, List.append_assoc]

/-! ## Payload Builder claim (modelled from the spec) -/

/-- C5: for a Conversation with `force_reasoning = true`, a non-empty
`system_prompt`, and the turns `[user:"hi", assistant:"hello"]`, the
Payload Builder (modelled from spec §4.1; `src/app.py` has no such builder)
emits exactly four blocks in this order: the synthetic
reasoning-instruction block, the system-prompt block, then the two stored
turns in their original order. -/
theorem payload_ordering (instr sp : Str) (hsp : sp ≠ []) :
    build_payload instr
        ⟨[⟨Role.user, "hi".data⟩, ⟨Role.assistant, "hello".data⟩], sp, true⟩
      = [⟨Role.user, instr⟩, ⟨Role.user, sp⟩,
          ⟨Role.user, "hi".data⟩, ⟨Role.assistant, "hello".data⟩] := by
  simp [build_payload, hsp]

/-- Witness for C5 at a concrete instruction text and system prompt. -/
theorem payload_ordering_witness :
    ("Be brief.".data : Str) ≠ [] ∧
      build_payload ("Please show your reasoning.".data)
          ⟨[⟨Role.user, "hi".data⟩, ⟨Role.assistant, "hello".data⟩],
            "Be brief.".data, true⟩
        = [⟨Role.user, "Please show your reasoning.".data⟩,
            ⟨Role.user, "Be brief.".data⟩,
            ⟨Role.user, "hi".data⟩, ⟨Role.assistant, "hello".data⟩] :=
  ⟨by decide, payload_ordering ("Please show your reasoning.".data)
    ("Be brief.".data) (by decide)⟩

end ClaudeChat
